import Mathlib

/-!
Shallow embedding of `src/olympia/bandwagon/serializers.py` (collection
validation and serialization for the add-ons marketplace API).

External collaborators that live outside the given sources —
`DeniedName.blocked`, `slug_validator`, `clean_nl`, `has_links`,
`is_gate_active`, the waffle switch lookup, and DRF's
`UniqueTogetherValidator` — are passed in as explicit parameters or
modelled from the specification, as noted on each definition.
-/

namespace Bandwagon

/-- Message of the ValidationError raised by CollectionAkismetSpamValidator. -/
def spamFlaggedMessage : String := "The text entered has been flagged as spam."

/-- Message raised by CollectionSerializer.validate_name on blank input. -/
def nameEmptyMessage : String := "Name cannot be empty."

/-- Message raised by CollectionSerializer.validate_name on a denylisted value. -/
def nameDeniedMessage : String := "This name cannot be used."

/-- Message raised by CollectionSerializer.validate_description on links. -/
def noLinksMessage : String := "No links are allowed."

/-- Message passed to slug_validator by CollectionSerializer.validate_slug. -/
def slugGrammarMessage : String :=
  "The custom URL must consist of letters, numbers, underscores or hyphens."

/-- Message raised by CollectionSerializer.validate_slug on a denylisted value. -/
def slugDeniedMessage : String := "This custom URL cannot be used."

/-- Message of the (slug, author) UniqueTogetherValidator on CollectionSerializer. -/
def collectionUniqueMessage : String :=
  "This custom URL is already in use by another one of your collections."

/-- Message of the (addon, collection) UniqueTogetherValidator on
CollectionAddonSerializer. The source string has no trailing period. -/
def collectionAddonUniqueMessage : String :=
  "This add-on already belongs to the collection"

/-- Outcome of CollectionAkismetSpamValidator.__call__ : whether
save_akismet_report.delay was invoked (a task queued), and the message of the
ValidationError when one is raised. -/
structure SpamValidatorOutcome where
  taskQueued : Bool
  error : Option String
deriving DecidableEq

/-- The fields the CollectionAkismetSpamValidator instance is configured with
in CollectionSerializer.Meta.validators. -/
def akismetValidatorFields : List String := ["name", "description"]

/-- CollectionAkismetSpamValidator.__call__ : `attrs` is the submitted
change-set; `commentChecks` lists the comment_check() result of each akismet
report built from the filtered data; `raiseIfSpam` is the state of the
waffle switch 'akismet-collection-action'. The source filters `attrs` to the
configured fields, returns early when nothing is left, and — only inside the
`raise_if_spam` branch — queues save_akismet_report.delay and raises the
ValidationError when any report is flagged. -/
def akismetSpamValidatorCall (fields : List String) (attrs : List (String × String))
    (commentChecks : List Bool) (raiseIfSpam : Bool) : SpamValidatorOutcome :=
  let data := attrs.filter (fun p => fields.contains p.1)
  if data.isEmpty then ⟨false, none⟩
  else if commentChecks.any id then
    if raiseIfSpam then ⟨true, some spamFlaggedMessage⟩
    else ⟨false, none⟩
  else ⟨false, none⟩

/-- Modelled from the spec: DRF's `UniqueTogetherValidator` is an external
collaborator (rest_framework) not present in the sources. Per the spec, the
configured tuple "must be unique across all existing rows — enforced pre-save
with a dedicated conflict message": validation fails with the configured
message exactly when the candidate tuple already exists among stored rows. -/
def uniqueTogetherValidate {α : Type} [DecidableEq α] (existing : List α)
    (message : String) (candidate : α) : Option String :=
  if candidate ∈ existing then some message else none

/-- The (slug, author) validator configured on CollectionSerializer.Meta:
rows are (slug, author id) pairs. -/
def collectionSlugAuthorValidate (existing : List (String × Nat))
    (candidate : String × Nat) : Option String :=
  uniqueTogetherValidate existing collectionUniqueMessage candidate

/-- The (addon, collection) validator configured on
CollectionAddonSerializer.Meta: rows are (addon id, collection id) pairs. -/
def collectionAddonUniqueValidate (existing : List (Nat × Nat))
    (candidate : Nat × Nat) : Option String :=
  uniqueTogetherValidate existing collectionAddonUniqueMessage candidate

namespace CollectionMeta

/-- CollectionSerializer.Meta.fields. -/
def fields : List String :=
  ["id", "uuid", "url", "addon_count", "author", "description",
   "modified", "name", "slug", "public", "default_locale"]

/-- CollectionSerializer.Meta.writeable_fields. -/
def writeable_fields : List String :=
  ["description", "name", "slug", "public", "default_locale"]

/-- CollectionSerializer.Meta.read_only_fields =
tuple(set(fields) - set(writeable_fields)); a Python set difference is
order-free, so it is embedded as the (content-equal) filtered list. -/
def read_only_fields : List String :=
  fields.filter (fun f => !writeable_fields.contains f)

end CollectionMeta

namespace CollectionAddonMeta

/-- CollectionAddonSerializer.Meta.fields. -/
def fields : List String := ["addon", "notes", "collection"]

/-- CollectionAddonSerializer.Meta.writeable_fields. -/
def writeable_fields : List String := ["notes"]

/-- CollectionAddonSerializer.Meta.read_only_fields =
tuple(set(fields) - set(writeable_fields)). -/
def read_only_fields : List String :=
  fields.filter (fun f => !writeable_fields.contains f)

end CollectionAddonMeta

namespace CollectionWithAddonsMeta

/-- CollectionWithAddonsSerializer.Meta.fields =
CollectionSerializer.Meta.fields + ('addons',). -/
def fields : List String := CollectionMeta.fields ++ ["addons"]

/-- CollectionWithAddonsSerializer.Meta inherits writeable_fields from
CollectionSerializer.Meta. -/
def writeable_fields : List String := CollectionMeta.writeable_fields

/-- CollectionWithAddonsSerializer.Meta.read_only_fields =
tuple(set(fields) - set(CollectionSerializer.Meta.writeable_fields)). -/
def read_only_fields : List String :=
  fields.filter (fun f => !CollectionMeta.writeable_fields.contains f)

end CollectionWithAddonsMeta

/-- CollectionAddonSerializer.validate: on a partial update the submitted
'addon' key is popped from the validated data before the default validation
runs (which is the identity on the data here); otherwise the data is returned
as-is. `patchMode` embeds `self.partial`. -/
def collectionAddonValidate (patchMode : Bool)
    (data : List (String × String)) : List (String × String) :=
  if patchMode then data.filter (fun p => p.1 != "addon") else data

/-- Python dict assignment `d[k] = v` on an insertion-ordered dict embedded as
an association list: overwrite in place when the key exists, else append. -/
def dictSet (d : List (String × Nat)) (k : String) (v : Nat) :
    List (String × Nat) :=
  if d.any (fun p => p.1 == k) then
    d.map (fun p => if p.1 == k then (k, v) else p)
  else d ++ [(k, v)]

/-- CollectionAddonSerializer.to_representation: `request` is the (possibly
absent) request taken from the serializer context, `isGateActive` embeds
olympia.api.utils.is_gate_active (an external collaborator resolved per
request and gate name), and `base` is the representation produced by the
superclass. When a request is present and the 'collections-downloads-shim'
gate is active for it, `out['downloads'] = 0` is set on the output. -/
def collectionAddonToRepresentation (request : Option Nat)
    (isGateActive : Nat → String → Bool)
    (base : List (String × Nat)) : List (String × Nat) :=
  match request with
  | some r =>
      if isGateActive r "collections-downloads-shim" then
        dictSet base "downloads" 0
      else base
  | none => base

/-- Python str.strip embedded structurally: drop whitespace from both ends of
the character list (String.trim computes the same value but is not
kernel-reducible). -/
def pyStrip (s : String) : String :=
  String.mk
    (((s.data.dropWhile Char.isWhitespace).reverse.dropWhile
      Char.isWhitespace).reverse)

/-- A `name` value submitted to CollectionSerializer.validate_name: either a
plain text string or a mapping of locale to a further name value (the source
recurses on any dict value). -/
inductive NameValue where
  | str : String → NameValue
  | dict : List (String × NameValue) → NameValue

mutual

/-- CollectionSerializer.validate_name. `blocked` embeds DeniedName.blocked,
an external denylist collaborator passed as a parameter. A dict value is
validated entry-wise (the Python dict comprehension re-raises the first
failing entry's error); a string value is rejected when it strips to empty,
then when denylisted, and is otherwise returned unchanged. -/
def validate_name (blocked : String → Bool) : NameValue → Except String NameValue
  | .str v =>
      if pyStrip v = "" then .error nameEmptyMessage
      else if blocked v then .error nameDeniedMessage
      else .ok (.str v)
  | .dict entries => Except.map NameValue.dict (validate_name_entries blocked entries)

/-- Entry-wise traversal of a localised dict by validate_name: each value is
validated in order; the first error aborts the whole mapping. -/
def validate_name_entries (blocked : String → Bool) :
    List (String × NameValue) → Except String (List (String × NameValue))
  | [] => .ok []
  | (loc, v) :: rest =>
      match validate_name blocked v with
      | .error e => .error e
      | .ok v' =>
          match validate_name_entries blocked rest with
          | .error e => .error e
          | .ok rest' => .ok ((loc, v') :: rest')

end

/-- CollectionSerializer.validate_description. `cleanNl` embeds clean_nl and
`hasLinks` embeds has_links, both olympia.amo.utils collaborators not present
in the sources; per the spec the sanitizer "strips/normalizes text and
detects embedded hyperlinks". The check runs on the sanitized copy; the
value returned on success is the original input. -/
def validate_description (hasLinks : String → Bool) (cleanNl : String → String)
    (value : String) : Except String String :=
  if hasLinks (cleanNl value) then .error noLinksMessage
  else .ok value

/-- Modelled from the spec: slug_validator lives in olympia.amo.utils, which
is not among the sources. Per the spec the slug "must match a URL-slug
grammar (letters, digits, underscore, hyphen; case preserved)". -/
def validSlug (s : String) : Bool :=
  !s.isEmpty && s.data.all (fun c => c.isAlphanum || c == '_' || c == '-')

/-- CollectionSerializer.validate_slug: slug_validator (with lower=False and
the grammar message) runs first, then the denylist check, then the value is
returned unchanged. `blocked` embeds DeniedName.blocked. -/
def validate_slug (blocked : String → Bool) (value : String) :
    Except String String :=
  if !validSlug value then .error slugGrammarMessage
  else if blocked value then .error slugDeniedMessage
  else .ok value

/-! Theorems -/

/-- Helper: Boolean containment on string lists agrees with membership. -/
theorem contains_eq_false_iff (l : List String) (a : String) :
    l.contains a = false ↔ a ∉ l := by
  simp [List.contains, List.elem_iff]

/-- C1 counterexample: the claim says a flagged submission queues the
report-persistence task regardless of the 'akismet-collection-action' gate.
On a concrete flagged submission with the gate off, the source queues no task
(and raises no error): save_akismet_report.delay sits inside the
`if raise_if_spam` branch. -/
theorem akismet_gate_off_queues_nothing :
    akismetSpamValidatorCall akismetValidatorFields
      [("name", "flagged text")] [true] false = ⟨false, none⟩ := rfl

/-- C1 (amended): for every submission whose filtered name/description data is
non-empty and which the spam-check service flags, the validator queues the
report-persistence task and raises the ValidationError 'The text entered has
been flagged as spam.' if and only if the 'akismet-collection-action' gate is
active; when the gate is inactive it neither queues the task nor raises. -/
theorem akismet_flagged_behavior (attrs : List (String × String))
    (commentChecks : List Bool) (gate : Bool)
    (hdata : (attrs.filter
      (fun p => akismetValidatorFields.contains p.1)).isEmpty = false)
    (hflag : commentChecks.any id = true) :
    akismetSpamValidatorCall akismetValidatorFields attrs commentChecks gate
      = if gate then ⟨true, some spamFlaggedMessage⟩ else ⟨false, none⟩ := by
  simp only [akismetSpamValidatorCall, hdata, hflag, Bool.false_eq_true,
    if_false, if_true]

/-- C1 witness: a concrete flagged submission with the gate on queues the
task and raises the spam error. -/
theorem akismet_flagged_behavior_witness :
    akismetSpamValidatorCall akismetValidatorFields
      [("name", "flagged text")] [true] true
      = ⟨true, some spamFlaggedMessage⟩ := by
  simpa using akismet_flagged_behavior [("name", "flagged text")] [true] true
    (by rfl) (by rfl)

/-- C2 counterexample: adding a duplicate (addon, collection) pair is rejected
with the configured message, which is 'This add-on already belongs to the
collection' — without the trailing period the claim quotes. -/
theorem collection_addon_unique_message_counterexample :
    collectionAddonUniqueValidate [(1, 2)] (1, 2)
        = some "This add-on already belongs to the collection"
    ∧ collectionAddonUniqueMessage
        ≠ "This add-on already belongs to the collection." :=
  ⟨rfl, by decide⟩

/-- C2 (amended): every candidate Collection whose (slug, author) pair exists
among stored rows fails validation with the duplicate-URL message, and every
candidate CollectionAddon whose (addon, collection) pair exists fails with
'This add-on already belongs to the collection' (no trailing period). -/
theorem unique_together_rejects_duplicates
    (rows1 : List (String × Nat)) (c1 : String × Nat)
    (rows2 : List (Nat × Nat)) (c2 : Nat × Nat)
    (h1 : c1 ∈ rows1) (h2 : c2 ∈ rows2) :
    collectionSlugAuthorValidate rows1 c1 = some collectionUniqueMessage
    ∧ collectionAddonUniqueValidate rows2 c2
        = some "This add-on already belongs to the collection" := by
  constructor <;>
    simp [collectionSlugAuthorValidate, collectionAddonUniqueValidate,
      uniqueTogetherValidate, h1, h2, collectionAddonUniqueMessage]

/-- C2 witness: concrete duplicates for both validators. -/
theorem unique_together_rejects_duplicates_witness :
    collectionSlugAuthorValidate [("my-slug", 7)] ("my-slug", 7)
        = some collectionUniqueMessage
    ∧ collectionAddonUniqueValidate [(3, 4)] (3, 4)
        = some "This add-on already belongs to the collection" :=
  unique_together_rejects_duplicates [("my-slug", 7)] ("my-slug", 7)
    [(3, 4)] (3, 4) (by simp) (by simp)

/-- C3: for each of the three serializers the declared read-only field set is
exactly the declared full field list minus the declared writable field list
(the source derives it by set subtraction), and those sets enumerate to the
expected concrete fields. -/
theorem read_only_is_set_difference :
    (∀ f : String, f ∈ CollectionMeta.read_only_fields ↔
        f ∈ CollectionMeta.fields ∧ f ∉ CollectionMeta.writeable_fields)
    ∧ (∀ f : String, f ∈ CollectionAddonMeta.read_only_fields ↔
        f ∈ CollectionAddonMeta.fields ∧ f ∉ CollectionAddonMeta.writeable_fields)
    ∧ (∀ f : String, f ∈ CollectionWithAddonsMeta.read_only_fields ↔
        f ∈ CollectionWithAddonsMeta.fields
          ∧ f ∉ CollectionWithAddonsMeta.writeable_fields)
    ∧ CollectionMeta.read_only_fields
        = ["id", "uuid", "url", "addon_count", "author", "modified"]
    ∧ CollectionAddonMeta.read_only_fields = ["addon", "collection"]
    ∧ CollectionWithAddonsMeta.read_only_fields
        = ["id", "uuid", "url", "addon_count", "author", "modified", "addons"] := by
  refine ⟨?_, ?_, ?_, rfl, rfl, rfl⟩ <;> intro f
  · simp [CollectionMeta.read_only_fields, List.mem_filter]
  · simp [CollectionAddonMeta.read_only_fields, List.mem_filter]
  · simp only [CollectionWithAddonsMeta.read_only_fields,
      CollectionWithAddonsMeta.fields, CollectionWithAddonsMeta.writeable_fields,
      List.mem_filter, List.mem_append, List.mem_singleton, Bool.not_eq_true',
      contains_eq_false_iff]

/-- Helper: a key removed by filtering can no longer be looked up. -/
theorem lookup_filter_ne_self (k : String) (data : List (String × String)) :
    (data.filter (fun p => p.1 != k)).lookup k = none := by
  rw [List.lookup_eq_none_iff]
  intro p hp
  have hne := (List.mem_filter.mp hp).2
  simp only [bne_iff_ne] at hne ⊢
  exact Ne.symm hne

/-- Helper: filtering one key out leaves every other lookup unchanged. -/
theorem lookup_filter_ne_other (k k' : String) (data : List (String × String))
    (h : k' ≠ k) :
    (data.filter (fun p => p.1 != k)).lookup k' = data.lookup k' := by
  induction data with
  | nil => rfl
  | cons hd tl ih =>
      obtain ⟨a, b⟩ := hd
      by_cases hh : a = k
      · subst hh
        simp [List.filter_cons, bne_self_eq_false, List.lookup_cons,
          beq_false_of_ne h, ih]
      · by_cases hk : k' = a
        · subst hk
          simp [List.filter_cons, bne_iff_ne, hh]
        · simp [List.filter_cons, bne_iff_ne, hh, List.lookup_cons,
            beq_false_of_ne hk, ih]

/-- C4: on a partial update of a CollectionAddon, any submitted 'addon' value
is dropped from the validated data while every other submitted key (such as
'notes') keeps its submitted value; without partial mode the data is
untouched. -/
theorem collection_addon_patch_drops_addon (data : List (String × String)) :
    (collectionAddonValidate true data).lookup "addon" = none
    ∧ (∀ k : String, k ≠ "addon" →
        (collectionAddonValidate true data).lookup k = data.lookup k)
    ∧ collectionAddonValidate false data = data := by
  refine ⟨?_, ?_, rfl⟩
  · simpa [collectionAddonValidate] using lookup_filter_ne_self "addon" data
  · intro k hk
    simpa [collectionAddonValidate] using
      lookup_filter_ne_other "addon" k data hk

/-- C4 witness: a concrete patch with both 'addon' and 'notes' submitted. -/
theorem collection_addon_patch_drops_addon_witness :
    (collectionAddonValidate true
        [("addon", "123"), ("notes", "great")]).lookup "addon" = none
    ∧ (collectionAddonValidate true
        [("addon", "123"), ("notes", "great")]).lookup "notes" = some "great" :=
  ⟨(collection_addon_patch_drops_addon [("addon", "123"), ("notes", "great")]).1,
   by
    have h := (collection_addon_patch_drops_addon
      [("addon", "123"), ("notes", "great")]).2.1 "notes" (by decide)
    simpa using h⟩

/-- Helper: if a key is absent (lookup none), no entry's key beq-matches it. -/
theorem any_key_eq_false_of_lookup_none (data : List (String × Nat)) (k : String)
    (h : data.lookup k = none) : data.any (fun p => p.1 == k) = false := by
  rw [List.lookup_eq_none_iff] at h
  simp only [List.any_eq_false]
  intro p hp
  have hne := h p hp
  simp only [bne_iff_ne] at hne
  simp only [beq_iff_eq]
  exact Ne.symm hne

/-- Helper: lookup skips over a block that does not hold the key. -/
theorem lookup_append_right (data l2 : List (String × Nat)) (k : String)
    (h : data.lookup k = none) : (data ++ l2).lookup k = l2.lookup k := by
  rw [List.lookup_append, h, Option.none_or]

/-- Helper: Python dict assignment of a fresh key appends it. -/
theorem dictSet_fresh (data : List (String × Nat)) (k : String) (v : Nat)
    (h : data.lookup k = none) : dictSet data k v = data ++ [(k, v)] := by
  simp [dictSet, any_key_eq_false_of_lookup_none data k h]

/-- C5: the representation of a CollectionAddon carries 'downloads' with value
0 exactly when the 'collections-downloads-shim' gate is active for the current
request, and carries no 'downloads' key otherwise (the superclass output has
no such key). -/
theorem downloads_shim_iff (request : Option Nat)
    (isGateActive : Nat → String → Bool) (base : List (String × Nat))
    (hbase : base.lookup "downloads" = none) :
    ((collectionAddonToRepresentation request isGateActive base).lookup
        "downloads" = some 0
      ↔ ∃ r, request = some r
          ∧ isGateActive r "collections-downloads-shim" = true)
    ∧ ((collectionAddonToRepresentation request isGateActive base).lookup
        "downloads" = none
      ↔ ∀ r, request = some r →
          isGateActive r "collections-downloads-shim" = false) := by
  cases request with
  | none => simp [collectionAddonToRepresentation, hbase]
  | some r =>
      by_cases hg : isGateActive r "collections-downloads-shim" = true
      · have hfresh := dictSet_fresh base "downloads" 0 hbase
        have happ := lookup_append_right base [("downloads", 0)] "downloads" hbase
        simp [collectionAddonToRepresentation, hg, hfresh, happ, List.lookup]
      · simp only [Bool.not_eq_true] at hg
        simp [collectionAddonToRepresentation, hg, hbase]

/-- C5 witness: with a request for which the shim gate is active, a concrete
base representation gains downloads = 0. -/
theorem downloads_shim_iff_witness :
    (collectionAddonToRepresentation (some 0)
        (fun _ g => g == "collections-downloads-shim")
        [("addon", 5)]).lookup "downloads" = some 0 :=
  (downloads_shim_iff (some 0) (fun _ g => g == "collections-downloads-shim")
    [("addon", 5)] rfl).1.mpr ⟨0, rfl, rfl⟩

/-- Helper: when every entry of a localised dict validates, the entry
traversal succeeds and relates input to output entry-wise. -/
theorem validate_name_entries_ok_of_all (blocked : String → Bool)
    (entries : List (String × NameValue))
    (h : ∀ p ∈ entries, ∃ v', validate_name blocked p.2 = .ok v') :
    ∃ res, validate_name_entries blocked entries = .ok res
      ∧ List.Forall₂ (fun p q => p.1 = q.1
          ∧ validate_name blocked p.2 = Except.ok q.2) entries res := by
  induction entries with
  | nil => exact ⟨[], rfl, List.Forall₂.nil⟩
  | cons hd tl ih =>
      obtain ⟨v', hv⟩ := h hd (by simp)
      obtain ⟨res, hres, hforall⟩ := ih (fun p hp => h p (by simp [hp]))
      refine ⟨(hd.1, v') :: res, ?_, List.Forall₂.cons ⟨rfl, hv⟩ hforall⟩
      obtain ⟨loc, v⟩ := hd
      simp only at hv
      simp [validate_name_entries, hv, hres]

/-- Helper: a single failing entry makes the whole entry traversal fail. -/
theorem validate_name_entries_error_of_mem (blocked : String → Bool)
    (entries : List (String × NameValue)) (loc : String) (v : NameValue)
    (e : String) (hmem : (loc, v) ∈ entries)
    (he : validate_name blocked v = .error e) :
    ∃ e', validate_name_entries blocked entries = .error e' := by
  induction entries with
  | nil => cases hmem
  | cons hd tl ih =>
      obtain ⟨a, w⟩ := hd
      cases hw : validate_name blocked w with
      | error e2 => exact ⟨e2, by simp [validate_name_entries, hw]⟩
      | ok w' =>
          rcases List.mem_cons.mp hmem with heq | hmem'
          · obtain ⟨rfl, rfl⟩ := Prod.mk.injEq .. ▸ heq
            rw [hw] at he
            cases he
          · obtain ⟨e', he'⟩ := ih hmem'
            exact ⟨e', by simp [validate_name_entries, hw, he']⟩

/-- Helper: the entry-wise validation relation preserves the key sequence. -/
theorem validate_name_entries_keys {blocked : String → Bool}
    {entries res : List (String × NameValue)}
    (h : List.Forall₂ (fun p q => p.1 = q.1
        ∧ validate_name blocked p.2 = Except.ok q.2) entries res) :
    res.map Prod.fst = entries.map Prod.fst := by
  induction h with
  | nil => rfl
  | cons hpq _ ih => simp [hpq.1, ih]

/-- C6: for a localised dict name value, a single entry that fails validation
fails the whole field, and when every entry validates the result is a dict
with the same locale keys in order, each value being the validated image of
the submitted one. -/
theorem validate_name_dict_behavior (blocked : String → Bool)
    (entries : List (String × NameValue)) :
    ((∃ loc v e, (loc, v) ∈ entries ∧ validate_name blocked v = .error e) →
      ∃ e', validate_name blocked (.dict entries) = .error e')
    ∧ ((∀ p ∈ entries, ∃ v', validate_name blocked p.2 = .ok v') →
      ∃ res, validate_name blocked (.dict entries) = .ok (.dict res)
        ∧ res.map Prod.fst = entries.map Prod.fst
        ∧ List.Forall₂ (fun p q => p.1 = q.1
            ∧ validate_name blocked p.2 = Except.ok q.2) entries res) := by
  constructor
  · rintro ⟨loc, v, e, hmem, he⟩
    obtain ⟨e', he'⟩ :=
      validate_name_entries_error_of_mem blocked entries loc v e hmem he
    exact ⟨e', by simp [validate_name, he', Except.map]⟩
  · intro h
    obtain ⟨res, hres, hf⟩ := validate_name_entries_ok_of_all blocked entries h
    exact ⟨res, by simp [validate_name, hres, Except.map],
      validate_name_entries_keys hf, hf⟩

/-- C6 witness: one denylisted locale value fails a concrete mapping; a clean
mapping validates to itself with the same key. -/
theorem validate_name_dict_behavior_witness :
    (∃ e', validate_name (fun v => v == "bad")
        (.dict [("en-US", .str "bad")]) = .error e')
    ∧ (∃ res, validate_name (fun _ => false)
          (.dict [("en-US", .str "Nice")]) = .ok (.dict res)
        ∧ res.map Prod.fst = [("en-US", NameValue.str "Nice")].map Prod.fst
        ∧ List.Forall₂ (fun p q => p.1 = q.1
            ∧ validate_name (fun _ => false) p.2 = Except.ok q.2)
            [("en-US", NameValue.str "Nice")] res) :=
  ⟨(validate_name_dict_behavior (fun v => v == "bad") [("en-US", .str "bad")]).1
      ⟨"en-US", .str "bad", nameDeniedMessage, by simp,
        by simp +decide [validate_name]⟩,
   (validate_name_dict_behavior (fun _ => false) [("en-US", .str "Nice")]).2
      (by
        intro p hp
        simp at hp
        subst hp
        exact ⟨.str "Nice", by simp +decide [validate_name]⟩)⟩

/-- C7: for a plain string name value, the empty-name error is raised exactly
when the value strips to empty, the denylist error exactly when the
non-blank value is denylisted, and otherwise the value is returned
unchanged. -/
theorem validate_name_str_behavior (blocked : String → Bool) (v : String) :
    (validate_name blocked (.str v) = .error nameEmptyMessage ↔ pyStrip v = "")
    ∧ (validate_name blocked (.str v) = .error nameDeniedMessage
        ↔ pyStrip v ≠ "" ∧ blocked v = true)
    ∧ (pyStrip v ≠ "" → blocked v = false →
        validate_name blocked (.str v) = .ok (.str v)) := by
  have hne : nameEmptyMessage ≠ nameDeniedMessage := by decide
  by_cases he : pyStrip v = ""
  · simp [validate_name, he, hne]
  · by_cases hb : blocked v
    · simp [validate_name, he, hb, hne.symm]
    · simp [validate_name, he, hb]

/-- C7 witness: a concrete non-blank, non-denylisted name passes unchanged. -/
theorem validate_name_str_behavior_witness :
    validate_name (fun _ => false) (.str "My Collection")
      = .ok (.str "My Collection") :=
  (validate_name_str_behavior (fun _ => false) "My Collection").2.2
    (by decide) rfl

/-- C8: validate_description fails with the no-links message exactly when the
link detector flags the newline-sanitized copy of the value, and accepts the
value otherwise. -/
theorem validate_description_links_iff (hasLinks : String → Bool)
    (cleanNl : String → String) (value : String) :
    (validate_description hasLinks cleanNl value = .error noLinksMessage
      ↔ hasLinks (cleanNl value) = true)
    ∧ (hasLinks (cleanNl value) = false →
        validate_description hasLinks cleanNl value = .ok value) := by
  by_cases h : hasLinks (cleanNl value) <;> simp [validate_description, h]

/-- C8 witness: a concrete link-free description is accepted. -/
theorem validate_description_links_iff_witness :
    validate_description (fun s => s == "LINK") (fun s => s) "plain text"
      = .ok "plain text" :=
  (validate_description_links_iff (fun s => s == "LINK") (fun s => s)
    "plain text").2 (by decide)

/-- C9: validate_slug raises the grammar message exactly when the value fails
the URL-slug grammar, raises the denylist message exactly when the
well-formed value is denylisted, and otherwise returns the value; the spec's
two sample slugs behave as claimed. -/
theorem validate_slug_behavior (blocked : String → Bool) (value : String) :
    (validate_slug blocked value = .error slugGrammarMessage
      ↔ validSlug value = false)
    ∧ (validate_slug blocked value = .error slugDeniedMessage
        ↔ validSlug value = true ∧ blocked value = true)
    ∧ (validSlug value = true → blocked value = false →
        validate_slug blocked value = .ok value)
    ∧ validSlug "my-collection_1" = true
    ∧ validSlug "my collection!" = false := by
  have hne : slugGrammarMessage ≠ slugDeniedMessage := by decide
  refine ⟨?_, ?_, ?_, by decide, by decide⟩ <;>
    by_cases hv : validSlug value <;>
      by_cases hb : blocked value <;>
        simp [validate_slug, hv, hb, hne, hne.symm]

/-- C9 witness: the sample slug passes end to end with an empty denylist. -/
theorem validate_slug_behavior_witness :
    validate_slug (fun _ => false) "my-collection_1" = .ok "my-collection_1" :=
  (validate_slug_behavior (fun _ => false) "my-collection_1").2.2.1
    (by decide) rfl

/-- C10: an accepted description is returned exactly as submitted: the
newline sanitization feeds only the link check, never the result. -/
theorem validate_description_returns_original (hasLinks : String → Bool)
    (cleanNl : String → String) (value : String)
    (h : hasLinks (cleanNl value) = false) :
    validate_description hasLinks cleanNl value = .ok value := by
  simp [validate_description, h]

/-- C10 witness: even when the sanitizer rewrites the copy completely, the
accepted value is the original input, not the sanitized text. -/
theorem validate_description_returns_original_witness :
    validate_description (fun _ => false) (fun _ => "SANITIZED")
        "line1\nline2" = .ok "line1\nline2"
    ∧ "line1\nline2" ≠ "SANITIZED" :=
  ⟨validate_description_returns_original (fun _ => false)
      (fun _ => "SANITIZED") "line1\nline2" rfl,
   by decide⟩

end Bandwagon
